import Mathlib

/-!
Shallow embedding of the Windows Dev Environment Setup GUI
(`dev-setup-gui.py`, class `DevSetupGUI`).

The mutable attributes of the `DevSetupGUI` object are modelled as fields of
`GUIState`.  Tkinter widgets are modelled by the data they hold: the log
widget `self.log_text` is an `Option String` because it is created only in
`create_widgets`, after `load_config` has already run in `__init__`;
accessing it while it is `none` raises an `AttributeError` in Python, which
we model with the `Except` error branch carrying the message and the
already-mutated state (Python mutations performed before the raise persist).

External effects (the configuration file, the three package-manager probes,
the provisioning child process, the wall clock feeding `strftime`) are passed
in as explicit parameters.
-/

/-- A JSON value, the possible result of `json.load` on `config.json`.
The empty mapping `\x7b\x7d` is `JsonValue.obj []`. -/
inductive JsonValue where
  | null
  | bool (b : Bool)
  | num (n : Int)
  | str (s : String)
  | arr (elems : List JsonValue)
  | obj (fields : List (String × JsonValue))

/-- The mutable state of the `DevSetupGUI` object that the verified
operations read or write.  `log_text = none` means the log widget has not
been created yet (before `create_widgets`). -/
structure GUIState where
  is_installing : Bool
  installation_log : List String
  config : JsonValue
  package_managers : List (String × String)
  log_text : Option String
  status_text : String
  status_label : String
  pm_status : String
  install_btn_state : String
  progress_visible : Bool
  progress_running : Bool

/-- The log line built in `log_message`:
`log_entry = f"[\x7btimestamp\x7d] \x7bmessage\x7d\n"`. -/
def mkLogEntry (ts message : String) : String :=
  "[" ++ ts ++ "] " ++ message ++ "\n"

/-- `DevSetupGUI.log_message` (lines 566-574).  The timestamp `ts` stands for
`datetime.now().strftime("%H:%M:%S")`.  The entry is appended to
`installation_log` first; then `self.log_text.insert` runs, which raises
`AttributeError` when the widget does not exist yet. -/
def log_message (ts message : String) (s : GUIState) :
    Except (String × GUIState) GUIState :=
  let log_entry := mkLogEntry ts message
  let s1 := { s with installation_log := s.installation_log ++ [log_entry] }
  match s.log_text with
  | none => Except.error ("AttributeError", s1)
  | some t => Except.ok { s1 with log_text := some (t ++ log_entry) }

/-- `N` sequential calls to `log_message`, each with its own timestamp. -/
def log_messages (entries : List (String × String)) (s : GUIState) :
    Except (String × GUIState) GUIState :=
  match entries with
  | [] => Except.ok s
  | (ts, m) :: rest =>
    match log_message ts m s with
    | Except.ok s1 => log_messages rest s1
    | Except.error e => Except.error e

/-- Recognises the output format of `strftime("%H:%M:%S")`: two digits,
a colon, two digits, a colon, two digits. -/
def isHHMMSS (t : String) : Bool :=
  match t.data with
  | [h1, h2, c1, m1, m2, c2, s1, s2] =>
    h1.isDigit && h2.isDigit && (c1 == ':') && m1.isDigit && m2.isDigit &&
      (c2 == ':') && s1.isDigit && s2.isDigit
  | _ => false

/-- The entries produced by a list of `log_message` calls. -/
def mkEntries (entries : List (String × String)) : List String :=
  entries.map (fun p => mkLogEntry p.1 p.2)

/-- `DevSetupGUI.update_status` (lines 576-579). -/
def update_status (status : String) (s : GUIState) : GUIState :=
  { s with status_text := status,
           status_label := if s.is_installing then "🟡 Working" else "⚪ Ready" }

/-- State of the configuration file `config.json` as seen by `load_config`:
absent, present but failing `json.load` (with the exception message), or
present and parsing to a JSON value. -/
inductive ConfigFile where
  | missing
  | malformed (e : String)
  | valid (j : JsonValue)

/-- `DevSetupGUI.load_config` (lines 388-399).  On a parse failure the
`except` branch first calls `log_message` and only then assigns
`self.config = \x7b\x7d`; an exception raised by `log_message` escapes
`load_config`. -/
def load_config (file : ConfigFile) (ts : String) (s : GUIState) :
    Except (String × GUIState) GUIState :=
  match file with
  | ConfigFile.missing => Except.ok { s with config := JsonValue.obj [] }
  | ConfigFile.valid j => Except.ok { s with config := j }
  | ConfigFile.malformed e =>
    match log_message ts ("Error loading config: " ++ e) s with
    | Except.ok s1 => Except.ok { s1 with config := JsonValue.obj [] }
    | Except.error e2 => Except.error e2

/-- The state of the `DevSetupGUI` object at the point in `__init__` where
`load_config` is called (line 33): the state variables of lines 26-30 are
set, no widget exists yet. -/
def initState : GUIState :=
  { is_installing := false
    installation_log := []
    config := JsonValue.obj []
    package_managers := []
    log_text := none
    status_text := ""
    status_label := ""
    pm_status := ""
    install_btn_state := "normal"
    progress_visible := false
    progress_running := false }

/-- Projection used to state claims about the in-memory log of an
operation result (`none` when the operation raised). -/
def resultInstallationLog (r : Except (String × GUIState) GUIState) :
    Option (List String) :=
  match r with
  | Except.ok s => some s.installation_log
  | Except.error _ => none

/-- Outcome of one `subprocess.run([mgr, '--version'], ..., timeout=5)`
probe in `auto_detect_package_managers`: exit code 0 with some stdout,
a non-zero exit code, a `TimeoutExpired` raise, or a raise because the
executable is not found. -/
inductive ProbeResult where
  | ok (stdout : String)
  | exitNonzero (code : Int) (stdout : String)
  | timeout
  | notFound

/-- Whether a probe counts as failed (anything but exit code 0). -/
def probeFails (r : ProbeResult) : Bool :=
  match r with
  | ProbeResult.ok _ => false
  | _ => true

/-- One probe block of `auto_detect_package_managers`: on exit code 0 the
manager is recorded with its stripped stdout; a non-zero exit code adds
nothing; a raise is swallowed by `except: pass`. -/
def probe_add (name : String) (r : ProbeResult)
    (pms : List (String × String)) : List (String × String) :=
  match r with
  | ProbeResult.ok out => pms ++ [(name, out.trim)]
  | _ => pms

/-- Membership test on the registry, modelling Python
`name in self.package_managers` on the dict. -/
def containsPM (pms : List (String × String)) (name : String) : Bool :=
  pms.any (fun p => p.1 == name)

/-- The status-bar text built at the end of `auto_detect_package_managers`:
`" | ".join([f"\x7bpm\x7d: \x7bver\x7d" for pm, ver in ...])`. -/
def pm_status_text (pms : List (String × String)) : String :=
  String.intercalate " | " (pms.map (fun p => p.1 ++ ": " ++ p.2))

/-- `DevSetupGUI.auto_detect_package_managers` (lines 401-434).  The three
probes run in source order (choco, scoop, winget) on a freshly emptied
registry; `rc`, `rs`, `rw` are the outcomes of the three probes. -/
def auto_detect_package_managers (rc rs rw : ProbeResult) (s : GUIState) :
    GUIState :=
  let pms := probe_add "winget" rw (probe_add "scoop" rs (probe_add "choco" rc []))
  let pm_text := pm_status_text pms
  { s with package_managers := pms,
           pm_status := if pm_text == "" then "No package managers detected" else pm_text }

/-- `DevSetupGUI.detect_best_package_manager` (lines 520-529). -/
def detect_best_package_manager (pms : List (String × String)) : String :=
  if containsPM pms "choco" then "choco"
  else if containsPM pms "winget" then "winget"
  else if containsPM pms "scoop" then "scoop"
  else "winget"

/-- `DevSetupGUI.start_installation` (lines 456-469).  The returned `Bool`
records whether a worker thread running `run_installation` was spawned. -/
def start_installation (s : GUIState) : GUIState × Bool :=
  if s.is_installing then (s, false)
  else ({ s with is_installing := true
                 install_btn_state := "disabled"
                 progress_visible := true
                 progress_running := true }, true)

/-- The user-toggle inputs read by `run_installation`: the package-manager
radio selection `self.pm_var` and the debug / detailed-logging checkboxes. -/
structure InstallEnv where
  pm_var : String
  debug_var : Bool
  logging_var : Bool

/-- Behaviour of the provisioning child process as observed by
`run_installation`: `Popen` may raise; reading `process.stdout` may raise
after yielding some lines; `process.wait()` may raise; otherwise the
process exits with a code after the given output lines. -/
inductive ProcBehavior where
  | spawnFail (e : String)
  | readFail (lines : List String) (e : String)
  | waitFail (lines : List String) (e : String)
  | exits (lines : List String) (code : Int)

/-- The exception message produced by the child-process interaction, when
there is one. -/
def procError (p : ProcBehavior) : Option String :=
  match p with
  | ProcBehavior.spawnFail e => some e
  | ProcBehavior.readFail _ e => some e
  | ProcBehavior.waitFail _ e => some e
  | ProcBehavior.exits _ _ => none

/-- The command line assembled in `run_installation` (lines 483-492). -/
def build_cmd (pm : String) (debug verbose : Bool) : List String :=
  (["powershell", "-ExecutionPolicy", "Bypass", "-File", "setup.ps1",
    "-PackageManager", pm]
    ++ (if debug then ["-Debug"] else []))
    ++ (if verbose then ["-Verbose"] else [])

/-- The log entries produced by the output-streaming loop
`for line in process.stdout: self.log_message(line.strip())`, with the
`k`-th line logged at timestamp `tsf (i + k)`. -/
def lineEntries (tsf : Nat → String) (i : Nat) : List String → List String
  | [] => []
  | l :: rest => mkLogEntry (tsf i) l.trim :: lineEntries tsf (i + 1) rest

/-- The output-streaming loop of `run_installation` (lines 498-500): each
line is stripped and logged; the timestamp counter is threaded through. -/
def log_lines (tsf : Nat → String) (i : Nat) (lines : List String)
    (s : GUIState) : Except (String × GUIState × Nat) (GUIState × Nat) :=
  match lines with
  | [] => Except.ok (s, i)
  | l :: rest =>
    match log_message (tsf i) l.trim s with
    | Except.ok s1 => log_lines tsf (i + 1) rest s1
    | Except.error (e, s1) => Except.error (e, s1, i + 1)

/-- The `try` block of `run_installation` (lines 473-509).  `tsf n` is the
timestamp returned by `strftime` at the `n`-th `log_message` call; on an
exception the counter reached is carried along so the `except` handler logs
with the next timestamp. -/
def run_installation_try (env : InstallEnv) (proc : ProcBehavior)
    (tsf : Nat → String) (s : GUIState) :
    Except (String × GUIState × Nat) GUIState :=
  match log_message (tsf 0) "Starting installation..." s with
  | Except.error (e, s1) => Except.error (e, s1, 1)
  | Except.ok s1 =>
    let s2 := update_status "Installing packages..." s1
    let pm := if env.pm_var == "auto"
              then detect_best_package_manager s2.package_managers
              else env.pm_var
    let _cmd := build_cmd pm env.debug_var env.logging_var
    match proc with
    | ProcBehavior.spawnFail e => Except.error (e, s2, 1)
    | ProcBehavior.readFail lines e =>
      match log_lines tsf 1 lines s2 with
      | Except.error e2 => Except.error e2
      | Except.ok (s3, n) => Except.error (e, s3, n)
    | ProcBehavior.waitFail lines e =>
      match log_lines tsf 1 lines s2 with
      | Except.error e2 => Except.error e2
      | Except.ok (s3, n) => Except.error (e, s3, n)
    | ProcBehavior.exits lines code =>
      match log_lines tsf 1 lines s2 with
      | Except.error e2 => Except.error e2
      | Except.ok (s3, n) =>
        if code = 0 then
          match log_message (tsf n) "Installation completed successfully!" s3 with
          | Except.error (e, s4) => Except.error (e, s4, n + 1)
          | Except.ok s4 => Except.ok (update_status "Installation completed" s4)
        else
          match log_message (tsf n)
              ("Installation failed with code " ++ toString code) s3 with
          | Except.error (e, s4) => Except.error (e, s4, n + 1)
          | Except.ok s4 => Except.ok (update_status "Installation failed" s4)

/-- The `finally` block of `run_installation` (lines 514-518). -/
def run_finally (s : GUIState) : GUIState :=
  { s with is_installing := false
           install_btn_state := "normal"
           progress_running := false
           progress_visible := false }

/-- `DevSetupGUI.run_installation` (lines 471-518): the `try` body, the
`except` handler (which logs the error message and sets the status), and
the `finally` block, which runs on every path. -/
def run_installation (env : InstallEnv) (proc : ProcBehavior)
    (tsf : Nat → String) (s : GUIState) :
    Except (String × GUIState) GUIState :=
  match run_installation_try env proc tsf s with
  | Except.ok s1 => Except.ok (run_finally s1)
  | Except.error (e, s1, n) =>
    match log_message (tsf n) ("Error during installation: " ++ e) s1 with
    | Except.ok s2 => Except.ok (run_finally (update_status "Installation error" s2))
    | Except.error (e2, s2) => Except.error (e2, run_finally s2)

/-- `DevSetupGUI.clear_log` (lines 598-603): `confirm` is the answer of the
`messagebox.askyesno` dialog.  On confirmation the in-memory log is cleared,
the widget emptied, and then `log_message "Log cleared"` runs. -/
def clear_log (confirm : Bool) (ts : String) (s : GUIState) :
    Except (String × GUIState) GUIState :=
  if confirm then
    let s1 := { s with installation_log := [] }
    match s1.log_text with
    | none => Except.error ("AttributeError", s1)
    | some _ =>
      let s2 := { s1 with log_text := some "" }
      log_message ts "Log cleared" s2
  else Except.ok s

/-- `DevSetupGUI.refresh_log` (lines 581-585): the widget is emptied and
every in-memory entry re-inserted in order. -/
def refresh_log (s : GUIState) : Except (String × GUIState) GUIState :=
  match s.log_text with
  | none => Except.error ("AttributeError", s)
  | some _ =>
    Except.ok { s with
      log_text := some (s.installation_log.foldl (fun acc e => acc ++ e) "") }

/-- A state after `create_widgets` has run: the log widget exists (empty). -/
def readyState : GUIState :=
  { initState with log_text := some "" }

/-- A ready state with an installation already in progress. -/
def busyState : GUIState :=
  { readyState with is_installing := true }

/-- Concrete user toggles for witness instantiations. -/
def envW : InstallEnv :=
  { pm_var := "auto", debug_var := false, logging_var := true }

/-- A concrete timestamp source for witness instantiations. -/
def tsfW : Nat → String := fun _ => "12:00:00"

/-- A post-widget state holding one log entry, for the clear-log claims. -/
def c2State : GUIState :=
  { initState with
    installation_log := [mkLogEntry "00:00:01" "hello"]
    log_text := some (mkLogEntry "00:00:01" "hello") }

/-- Two concrete timestamped messages for the log-append witness. -/
def c8Entries : List (String × String) :=
  [("01:02:03", "first"), ("04:05:06", "second")]

/-- A post-widget state with a stale widget text and two stored entries,
for the refresh claim. -/
def c9State : GUIState :=
  { initState with
    installation_log := ["[00:00:01] a\n", "[00:00:02] b\n"]
    log_text := some "stale" }

/-! Theorems. -/

/-- When the log widget exists, `log_message` succeeds and appends exactly
one entry, updating the widget text accordingly. -/
theorem log_message_ok (ts m : String) (s : GUIState) (t : String)
    (h : s.log_text = some t) :
    log_message ts m s = Except.ok { s with
      installation_log := s.installation_log ++ [mkLogEntry ts m]
      log_text := some (t ++ mkLogEntry ts m) } := by
  simp [log_message, h]

/-- Claim C1: at the point of `__init__` where `load_config` runs, a
malformed configuration file makes `load_config` raise (the recovery path
calls `log_message`, which touches the not-yet-created log widget), instead
of completing with an empty configuration. -/
theorem load_config_malformed_raises_c1 :
    load_config (ConfigFile.malformed "Expecting value") "00:00:00" initState =
      Except.error ("AttributeError",
        { initState with installation_log :=
            [mkLogEntry "00:00:00" "Error loading config: Expecting value"] }) := by
  rfl

/-- Claim C4: invoking `start_installation` while the run-state flag is set
leaves the whole state unchanged and spawns no worker. -/
theorem start_installation_noop_c4 (s : GUIState) (h : s.is_installing = true) :
    start_installation s = (s, false) := by
  simp [start_installation, h]

/-- Witness for claim C4 at a concrete busy state. -/
theorem start_installation_noop_c4_witness :
    start_installation busyState = (busyState, false) :=
  start_installation_noop_c4 busyState rfl

/-- Counterexample to claim C2 as stated: after a confirmed `clear_log` the
in-memory log is not empty, because `clear_log` ends by logging the entry
"Log cleared". -/
theorem clear_log_confirmed_not_empty_c2 :
    resultInstallationLog (clear_log true "00:00:02" c2State) ≠ some [] := by
  decide

/-- Claim C2 (amended): after a confirmed `clear_log` every previously
stored entry is gone and the log contains exactly the single new timestamped
entry recording the clear action; without confirmation the state is
unchanged. -/
theorem clear_log_spec_c2 (s : GUIState) (t ts : String)
    (h : s.log_text = some t) :
    (∃ s1, clear_log true ts s = Except.ok s1 ∧
      s1.installation_log = [mkLogEntry ts "Log cleared"]) ∧
    clear_log false ts s = Except.ok s := by
  refine ⟨⟨{ s with installation_log := [mkLogEntry ts "Log cleared"]
                    log_text := some ("" ++ mkLogEntry ts "Log cleared") },
      ?_, rfl⟩, rfl⟩
  simp [clear_log, log_message, h]

/-- Witness for claim C2 (amended) at a concrete state. -/
theorem clear_log_spec_c2_witness :
    (∃ s1, clear_log true "00:00:02" c2State = Except.ok s1 ∧
      s1.installation_log = [mkLogEntry "00:00:02" "Log cleared"]) ∧
    clear_log false "00:00:02" c2State = Except.ok c2State :=
  clear_log_spec_c2 c2State (mkLogEntry "00:00:01" "hello") "00:00:02" rfl

/-- Claim C3: auto-selection returns the first manager of the fixed
priority list choco, winget, scoop that is present in the registry, and
`winget` when none of the three is present. -/
theorem detect_best_priority_c3 (pms : List (String × String)) :
    detect_best_package_manager pms =
      (["choco", "winget", "scoop"].find? (fun m => containsPM pms m)).getD
        "winget" := by
  cases hc : containsPM pms "choco" <;> cases hw : containsPM pms "winget" <;>
    cases hs : containsPM pms "scoop" <;>
      simp [detect_best_package_manager, List.find?, hc, hw, hs]

/-- Claim C10: for every registry, auto-selection yields one of the three
concrete manager names and in particular never the sentinel `auto`. -/
theorem detect_best_concrete_c10 (pms : List (String × String)) :
    (detect_best_package_manager pms = "choco" ∨
     detect_best_package_manager pms = "winget" ∨
     detect_best_package_manager pms = "scoop") ∧
    detect_best_package_manager pms ≠ "auto" := by
  cases hc : containsPM pms "choco" <;> cases hw : containsPM pms "winget" <;>
    cases hs : containsPM pms "scoop" <;>
      simp [detect_best_package_manager, hc, hw, hs]

/-- Claim C7: after auto-detection each of the three managers is in the
registry exactly when its own probe succeeded; a failed probe leaves that
manager out and does not affect the others. -/
theorem auto_detect_probe_fail_c7 (rc rs rw : ProbeResult) (s : GUIState) :
    (containsPM (auto_detect_package_managers rc rs rw s).package_managers
        "choco" = !(probeFails rc)) ∧
    (containsPM (auto_detect_package_managers rc rs rw s).package_managers
        "scoop" = !(probeFails rs)) ∧
    (containsPM (auto_detect_package_managers rc rs rw s).package_managers
        "winget" = !(probeFails rw)) := by
  cases rc <;> cases rs <;> cases rw <;>
    simp [auto_detect_package_managers, probe_add, containsPM, probeFails]

/-- Claim C9: when the widget exists, `refresh_log` rewrites the display to
exactly the concatenation of the in-memory entries in order and changes
nothing else, in particular not the in-memory log. -/
theorem refresh_log_display_c9 (s : GUIState) (t : String)
    (h : s.log_text = some t) :
    refresh_log s =
      Except.ok { s with log_text := some (String.join s.installation_log) } := by
  simp [refresh_log, h, String.join]

/-- Witness for claim C9 at a concrete two-entry state. -/
theorem refresh_log_display_c9_witness :
    refresh_log c9State =
      Except.ok { c9State with
        log_text := some (String.join c9State.installation_log) } :=
  refresh_log_display_c9 c9State "stale" rfl

/-- Claim C8: with the widget present, N sequential `log_message` calls
succeed and append exactly the N corresponding entries at the end of the
in-memory log, in call order, leaving every existing entry in place; each
appended entry is a bracketed `strftime`-format timestamp followed by the
message. -/
theorem log_message_append_c8 (entries : List (String × String)) :
    ∀ (s : GUIState) (t : String), s.log_text = some t →
      (∀ p ∈ entries, isHHMMSS p.1 = true) →
      ∃ s1, log_messages entries s = Except.ok s1 ∧
        s1.installation_log = s.installation_log ++ mkEntries entries ∧
        ∀ e ∈ mkEntries entries, ∃ ts m, isHHMMSS ts = true ∧
          e = mkLogEntry ts m := by
  induction entries with
  | nil =>
    intro s t h _
    exact ⟨s, rfl, by simp [mkEntries], by simp [mkEntries]⟩
  | cons p rest ih =>
    intro s t h hts
    obtain ⟨ts, m⟩ := p
    obtain ⟨s1, heq, hlog, hfmt⟩ :=
      ih { s with installation_log := s.installation_log ++ [mkLogEntry ts m]
                  log_text := some (t ++ mkLogEntry ts m) }
        (t ++ mkLogEntry ts m) rfl (fun q hq => hts q (List.mem_cons_of_mem _ hq))
    refine ⟨s1, ?_, ?_, ?_⟩
    · simp [log_messages, log_message_ok ts m s t h, heq]
    · simp only [hlog, mkEntries, List.map_cons, List.append_assoc,
        List.singleton_append]
    · intro e he
      rcases (by simpa [mkEntries] using he) with he1 | he2
      · exact ⟨ts, m, hts (ts, m) (List.mem_cons_self _ _), he1⟩
      · exact hfmt e (by simpa [mkEntries] using he2)

/-- Witness for claim C8 with two concrete timestamped messages. -/
theorem log_message_append_c8_witness :
    ∃ s1, log_messages c8Entries readyState = Except.ok s1 ∧
      s1.installation_log = readyState.installation_log ++ mkEntries c8Entries ∧
      ∀ e ∈ mkEntries c8Entries, ∃ ts m, isHHMMSS ts = true ∧
        e = mkLogEntry ts m :=
  log_message_append_c8 c8Entries readyState "" rfl (by decide)

/-- With the widget present, the output-streaming loop logs every line (in
order, stripped, timestamped with consecutive clock reads) and advances the
timestamp counter by the number of lines. -/
theorem log_lines_ok (tsf : Nat → String) (lines : List String) :
    ∀ (i : Nat) (s : GUIState) (t : String), s.log_text = some t →
      ∃ t1, log_lines tsf i lines s =
        Except.ok ({ s with
          installation_log := s.installation_log ++ lineEntries tsf i lines
          log_text := some t1 }, i + lines.length) := by
  induction lines with
  | nil =>
    intro i s t h
    refine ⟨t, ?_⟩
    cases s
    simp_all [log_lines, lineEntries]
  | cons l rest ih =>
    intro i s t h
    obtain ⟨t1, hrest⟩ := ih (i + 1)
      { s with installation_log := s.installation_log ++ [mkLogEntry (tsf i) l.trim]
               log_text := some (t ++ mkLogEntry (tsf i) l.trim) }
      (t ++ mkLogEntry (tsf i) l.trim) rfl
    refine ⟨t1, ?_⟩
    simp only [log_lines, log_message_ok (tsf i) l.trim s t h, hrest, lineEntries]
    simp [List.append_assoc]
    omega

/-- Evaluation of the `try` block when `Popen` itself raises: the exception
carries the state after the initial log entry and status update. -/
theorem run_try_spawnFail_eq (env : InstallEnv) (tsf : Nat → String)
    (e : String) (s : GUIState) (t : String) (h : s.log_text = some t) :
    run_installation_try env (ProcBehavior.spawnFail e) tsf s =
      Except.error (e, update_status "Installing packages..."
        { s with
          installation_log :=
            s.installation_log ++ [mkLogEntry (tsf 0) "Starting installation..."],
          log_text := some (t ++ mkLogEntry (tsf 0) "Starting installation...") },
        1) := by
  simp only [run_installation_try,
    log_message_ok (tsf 0) "Starting installation..." s t h]

/-- Evaluation of the `try` block when reading the output stream raises
after the logged lines. -/
theorem run_try_readFail_eq (env : InstallEnv) (tsf : Nat → String)
    (lines : List String) (e : String) (s s3 : GUIState) (t : String) (n : Nat)
    (h : s.log_text = some t)
    (hl : log_lines tsf 1 lines (update_status "Installing packages..."
      { s with
        installation_log :=
          s.installation_log ++ [mkLogEntry (tsf 0) "Starting installation..."],
        log_text := some (t ++ mkLogEntry (tsf 0) "Starting installation...") })
      = Except.ok (s3, n)) :
    run_installation_try env (ProcBehavior.readFail lines e) tsf s =
      Except.error (e, s3, n) := by
  simp only [run_installation_try,
    log_message_ok (tsf 0) "Starting installation..." s t h, hl]

/-- Evaluation of the `try` block when `process.wait()` raises after the
whole output stream was logged. -/
theorem run_try_waitFail_eq (env : InstallEnv) (tsf : Nat → String)
    (lines : List String) (e : String) (s s3 : GUIState) (t : String) (n : Nat)
    (h : s.log_text = some t)
    (hl : log_lines tsf 1 lines (update_status "Installing packages..."
      { s with
        installation_log :=
          s.installation_log ++ [mkLogEntry (tsf 0) "Starting installation..."],
        log_text := some (t ++ mkLogEntry (tsf 0) "Starting installation...") })
      = Except.ok (s3, n)) :
    run_installation_try env (ProcBehavior.waitFail lines e) tsf s =
      Except.error (e, s3, n) := by
  simp only [run_installation_try,
    log_message_ok (tsf 0) "Starting installation..." s t h, hl]

/-- Evaluation of the `try` block when the process exits with a non-zero
code: the terminal failure entry is logged after the streamed lines. -/
theorem run_try_exits_eq (env : InstallEnv) (tsf : Nat → String)
    (lines : List String) (code : Int) (s s3 : GUIState) (t t1 : String)
    (n : Nat) (h : s.log_text = some t) (hc : ¬ code = 0)
    (hl : log_lines tsf 1 lines (update_status "Installing packages..."
      { s with
        installation_log :=
          s.installation_log ++ [mkLogEntry (tsf 0) "Starting installation..."],
        log_text := some (t ++ mkLogEntry (tsf 0) "Starting installation...") })
      = Except.ok (s3, n))
    (hlt : s3.log_text = some t1) :
    run_installation_try env (ProcBehavior.exits lines code) tsf s =
      Except.ok (update_status "Installation failed"
        { s3 with
          installation_log := s3.installation_log ++
            [mkLogEntry (tsf n) ("Installation failed with code " ++ toString code)],
          log_text := some (t1 ++
            mkLogEntry (tsf n) ("Installation failed with code " ++ toString code)) }) := by
  have hm := log_message_ok (tsf n)
    ("Installation failed with code " ++ toString code) s3 t1 hlt
  simp only [run_installation_try,
    log_message_ok (tsf 0) "Starting installation..." s t h, hl, if_neg hc, hm]

/-- When the `try` block succeeds, `run_installation` returns its state
after the `finally` block. -/
theorem run_installation_of_try_ok (env : InstallEnv) (proc : ProcBehavior)
    (tsf : Nat → String) (s s1 : GUIState)
    (htry : run_installation_try env proc tsf s = Except.ok s1) :
    run_installation env proc tsf s = Except.ok (run_finally s1) := by
  simp only [run_installation, htry]

/-- When the `try` block raises and the widget is live at that point, the
`except` handler logs the error message, sets the status, and the `finally`
block runs: `run_installation` returns normally. -/
theorem run_installation_of_try_error (env : InstallEnv) (proc : ProcBehavior)
    (tsf : Nat → String) (s s3 : GUIState) (e t1 : String) (n : Nat)
    (htry : run_installation_try env proc tsf s = Except.error (e, s3, n))
    (hlt : s3.log_text = some t1) :
    run_installation env proc tsf s = Except.ok
      (run_finally (update_status "Installation error"
        { s3 with
          installation_log := s3.installation_log ++
            [mkLogEntry (tsf n) ("Error during installation: " ++ e)],
          log_text := some (t1 ++
            mkLogEntry (tsf n) ("Error during installation: " ++ e)) })) := by
  have hm := log_message_ok (tsf n) ("Error during installation: " ++ e) s3 t1 hlt
  simp only [run_installation, htry, hm]

/-- Claim C5: whichever of spawning, reading, or waiting raises, the
exception is caught inside `run_installation`: it returns normally with the
run-state flag cleared and a log entry carrying the exception message. -/
theorem run_installation_catches_c5 (env : InstallEnv) (proc : ProcBehavior)
    (e : String) (tsf : Nat → String) (s : GUIState) (t : String)
    (h : s.log_text = some t) (hp : procError proc = some e) :
    ∃ s1, run_installation env proc tsf s = Except.ok s1 ∧
      s1.is_installing = false ∧
      ∃ ts, mkLogEntry ts ("Error during installation: " ++ e) ∈
        s1.installation_log := by
  have h2 : (update_status "Installing packages..."
      { s with
        installation_log :=
          s.installation_log ++ [mkLogEntry (tsf 0) "Starting installation..."],
        log_text := some (t ++ mkLogEntry (tsf 0) "Starting installation...") }).log_text
      = some (t ++ mkLogEntry (tsf 0) "Starting installation...") := by
    simp [update_status]
  cases proc with
  | spawnFail e2 =>
    obtain rfl : e2 = e := by simpa [procError] using hp
    have htry := run_try_spawnFail_eq env tsf e2 s t h
    have heq := run_installation_of_try_error env _ tsf s _ e2 _ 1 htry h2
    refine ⟨_, heq, ?_, tsf 1, ?_⟩
    · rfl
    · simp [run_finally, update_status]
  | readFail lines e2 =>
    obtain rfl : e2 = e := by simpa [procError] using hp
    obtain ⟨t1, hl⟩ := log_lines_ok tsf lines 1 _ _ h2
    have htry := run_try_readFail_eq env tsf lines e2 s _ t _ h hl
    have heq := run_installation_of_try_error env _ tsf s _ e2 t1 _ htry rfl
    refine ⟨_, heq, ?_, tsf (1 + lines.length), ?_⟩
    · rfl
    · simp [run_finally, update_status]
  | waitFail lines e2 =>
    obtain rfl : e2 = e := by simpa [procError] using hp
    obtain ⟨t1, hl⟩ := log_lines_ok tsf lines 1 _ _ h2
    have htry := run_try_waitFail_eq env tsf lines e2 s _ t _ h hl
    have heq := run_installation_of_try_error env _ tsf s _ e2 t1 _ htry rfl
    refine ⟨_, heq, ?_, tsf (1 + lines.length), ?_⟩
    · rfl
    · simp [run_finally, update_status]
  | exits lines code => simp [procError] at hp

/-- Witness for claim C5: the spawn itself fails on a concrete ready
state. -/
theorem run_installation_catches_c5_witness :
    ∃ s1, run_installation envW (ProcBehavior.spawnFail "boom") tsfW readyState =
        Except.ok s1 ∧
      s1.is_installing = false ∧
      ∃ ts, mkLogEntry ts ("Error during installation: " ++ "boom") ∈
        s1.installation_log :=
  run_installation_catches_c5 envW (ProcBehavior.spawnFail "boom") "boom" tsfW
    readyState "" rfl rfl

/-- Claim C6: a non-zero exit code of the provisioning process yields a
terminal failure log entry naming the code, and the run-state flag is
cleared when `run_installation` returns. -/
theorem run_installation_nonzero_exit_c6 (env : InstallEnv)
    (lines : List String) (code : Int) (tsf : Nat → String) (s : GUIState)
    (t : String) (h : s.log_text = some t) (hc : code ≠ 0) :
    ∃ s1, run_installation env (ProcBehavior.exits lines code) tsf s =
        Except.ok s1 ∧
      s1.is_installing = false ∧
      ∃ ts, s1.installation_log.getLast? =
        some (mkLogEntry ts ("Installation failed with code " ++ toString code)) := by
  have h2 : (update_status "Installing packages..."
      { s with
        installation_log :=
          s.installation_log ++ [mkLogEntry (tsf 0) "Starting installation..."],
        log_text := some (t ++ mkLogEntry (tsf 0) "Starting installation...") }).log_text
      = some (t ++ mkLogEntry (tsf 0) "Starting installation...") := by
    simp [update_status]
  obtain ⟨t1, hl⟩ := log_lines_ok tsf lines 1 _ _ h2
  have htry := run_try_exits_eq env tsf lines code s _ t t1 _ h hc hl rfl
  have heq := run_installation_of_try_ok env _ tsf s _ htry
  refine ⟨_, heq, ?_, tsf (1 + lines.length), ?_⟩
  · rfl
  · simp only [run_finally, update_status]
    rw [List.getLast?_concat]

/-- Witness for claim C6: exit code 1 after one output line on a concrete
ready state. -/
theorem run_installation_nonzero_exit_c6_witness :
    ∃ s1, run_installation envW (ProcBehavior.exits ["done"] 1) tsfW readyState =
        Except.ok s1 ∧
      s1.is_installing = false ∧
      ∃ ts, s1.installation_log.getLast? =
        some (mkLogEntry ts
          ("Installation failed with code " ++ toString (1 : Int))) :=
  run_installation_nonzero_exit_c6 envW ["done"] 1 tsfW readyState "" rfl
    (by decide)
